import Mathlib

/-!
Verification of the envelope/recipient signing-workflow core of the
`docusign_clone` repository, shallowly embedded in Lean 4.

The embedding follows `backend/app/domain/models/envelope.py` (domain models),
`backend/app/application/services/envelope_service.py` (workflow service) and
`backend/app/infrastructure/repositories/envelope_repository.py` (repository).

Modelling conventions:
- UUIDs are opaque identifiers, modelled as `Nat`.
- Python `datetime` values are modelled as `Int` (e.g. microseconds since an
  epoch); `datetime.utcnow()` is modelled by passing an explicit `now : Int`
  into each operation; `timedelta(days = d)` adds `d * microsecondsPerDay`.
- The database is modelled as a `Store` holding the envelope rows and the
  recipient rows; each repository method is a function on `Store`.
- Python exceptions are modelled with `Except`: the service's exception
  classes become constructors of `Err`, and a domain-level `ValueError`
  that the service does not catch becomes `Err.valueError` (the spec's
  error taxonomy in section 7 is by kind, not by type: both
  `EnvelopeValidationError` and a domain `ValueError` are of the
  ValidationError kind).
- `hashlib.sha256` and the cryptographically secure random code generator
  are external primitives; the hash is passed in as a function parameter
  `sha256 : String → String` and fresh ids / fresh access codes are passed
  in as explicit arguments (mirroring that the service obtains them from
  `uuid4()` / `secrets`).
-/

deriving instance DecidableEq for Except

/-- `EnvelopeStatus` from `envelope.py`. -/
inductive EnvelopeStatus
  | draft
  | sent
  | delivered
  | signed
  | completed
  | declined
  | voided
  | expired
deriving DecidableEq

/-- `SigningOrder` from `envelope.py`. -/
inductive SigningOrder
  | parallel
  | sequential
deriving DecidableEq

/-- `RecipientRole` from `envelope.py`. -/
inductive RecipientRole
  | signer
  | cc
  | approver
deriving DecidableEq

/-- `RecipientStatus` from `envelope.py`. -/
inductive RecipientStatus
  | pending
  | sent
  | viewed
  | signed
  | declined
deriving DecidableEq

/-- The string value of an envelope status, as interpolated into the
Python error messages (string-backed enum values). -/
def EnvelopeStatus.valueStr : EnvelopeStatus → String
  | .draft => "draft"
  | .sent => "sent"
  | .delivered => "delivered"
  | .signed => "signed"
  | .completed => "completed"
  | .declined => "declined"
  | .voided => "voided"
  | .expired => "expired"

/-- The string value of a recipient role (used in error messages). -/
def RecipientRole.valueStr : RecipientRole → String
  | .signer => "signer"
  | .cc => "cc"
  | .approver => "approver"

/-- Models Python's `not s or not s.strip()`: true iff the string is empty or
consists only of whitespace. -/
def pyStrBlank (s : String) : Bool :=
  s.data.all Char.isWhitespace

/-- Models Python's `str.lower()`, character by character. -/
def pyLower (s : String) : String :=
  ⟨s.data.map Char.toLower⟩

/-- Microseconds per day; `timedelta(days = d)` is `d * microsecondsPerDay`
on our `Int` model of `datetime` (Python datetimes have microsecond
resolution). -/
def microsecondsPerDay : Int := 86400000000

/-- The `Envelope` domain model (`envelope.py`, class `Envelope`). -/
structure Envelope where
  envelopeId : Nat
  senderId : Nat
  subject : String
  message : Option String
  status : EnvelopeStatus
  signingOrder : SigningOrder
  expirationDays : Int
  expiresAt : Option Int
  voidReason : Option String
  createdAt : Int
  sentAt : Option Int
  completedAt : Option Int
  voidedAt : Option Int
  expiredAt : Option Int
  updatedAt : Int
deriving DecidableEq

/-- The `Recipient` domain model (`envelope.py`, class `Recipient`). -/
structure Recipient where
  recipientId : Nat
  envelopeId : Nat
  name : String
  email : String
  role : RecipientRole
  signingOrder : Int
  status : RecipientStatus
  userId : Option Nat
  phone : Option String
  accessCode : Option String
  accessCodeHash : Option String
  declineReason : Option String
  sentAt : Option Int
  viewedAt : Option Int
  signedAt : Option Int
  declinedAt : Option Int
  createdAt : Int
  updatedAt : Int
deriving DecidableEq

/-- `Envelope.MAX_RECIPIENTS`. -/
def Envelope.MAX_RECIPIENTS : Nat := 100

/-- `Recipient.MAX_NAME_LENGTH`. -/
def Recipient.MAX_NAME_LENGTH : Nat := 200

/-- `Recipient.MIN_SIGNING_ORDER`. -/
def Recipient.MIN_SIGNING_ORDER : Int := 1

/-- `Envelope.can_send` (`envelope.py` lines 154-164). -/
def Envelope.can_send (e : Envelope) : Bool × Option String :=
  if e.status ≠ EnvelopeStatus.draft then
    (false, some ("Cannot send envelope with status " ++ e.status.valueStr))
  else
    (true, none)

/-- `Envelope.can_void` (`envelope.py` lines 166-179).  Note that
`declined` is absent from the blocked list. -/
def Envelope.can_void (e : Envelope) : Bool × Option String :=
  if e.status = EnvelopeStatus.completed ∨ e.status = EnvelopeStatus.voided ∨
      e.status = EnvelopeStatus.expired then
    (false, some ("Cannot void envelope with status " ++ e.status.valueStr))
  else if e.status = EnvelopeStatus.draft then
    (false, some "Cannot void draft envelope (delete it instead)")
  else
    (true, none)

/-- `Envelope.can_update` (`envelope.py` lines 181-191). -/
def Envelope.can_update (e : Envelope) : Bool × Option String :=
  if e.status ≠ EnvelopeStatus.draft then
    (false, some ("Cannot update envelope with status " ++ e.status.valueStr))
  else
    (true, none)

/-- `Envelope.send` (`envelope.py` lines 193-213): check `can_send`, set
status `sent`, `sent_at = now`, and set `expires_at = sent_at +
timedelta(days=expiration_days)` only if `expires_at` is unset.
Raising `ValueError` is modelled as `Except.error`. -/
def Envelope.send (e : Envelope) (now : Int) : Except String Envelope :=
  match e.can_send with
  | (false, err) => .error (err.getD "")
  | (true, _) =>
    let e1 : Envelope :=
      { e with status := EnvelopeStatus.sent, sentAt := some now, updatedAt := now }
    if e1.expiresAt = none then
      .ok { e1 with expiresAt := some (now + e1.expirationDays * microsecondsPerDay) }
    else
      .ok e1

/-- `Envelope.void` (`envelope.py` lines 215-236). -/
def Envelope.void (e : Envelope) (reason : String) (now : Int) : Except String Envelope :=
  match e.can_void with
  | (false, err) => .error (err.getD "")
  | (true, _) =>
    if pyStrBlank reason then
      .error "Void reason is required"
    else
      .ok { e with status := EnvelopeStatus.voided, voidReason := some reason,
                   voidedAt := some now, updatedAt := now }

/-- `Envelope.complete` (`envelope.py` lines 238-247): unconditional. -/
def Envelope.complete (e : Envelope) (now : Int) : Envelope :=
  { e with status := EnvelopeStatus.completed, completedAt := some now, updatedAt := now }

/-- `Envelope.decline` (`envelope.py` lines 249-252): unconditional. -/
def Envelope.decline (e : Envelope) (now : Int) : Envelope :=
  { e with status := EnvelopeStatus.declined, updatedAt := now }

/-- `Recipient.validate_name` (`envelope.py` lines 358-375). -/
def Recipient.validate_name (name : String) : Bool × Option String :=
  if pyStrBlank name then
    (false, some "Recipient name is required")
  else if name.length > Recipient.MAX_NAME_LENGTH then
    (false, some "Recipient name cannot exceed 200 characters")
  else
    (true, none)

/-- `Recipient.validate_email` (`envelope.py` lines 377-395): non-blank,
must contain an `@`, and the part after the last `@` must contain a dot. -/
def Recipient.validate_email (email : String) : Bool × Option String :=
  if pyStrBlank email then
    (false, some "Recipient email is required")
  else if ¬ email.data.contains '@' ∨
      ¬ ((email.data.splitOn '@').getLastD []).contains '.' then
    (false, some "Invalid email format")
  else
    (true, none)

/-- `Recipient.validate_signing_order` (`envelope.py` lines 397-411): the
only rule is `order ≥ MIN_SIGNING_ORDER = 1`. -/
def Recipient.validate_signing_order (order : Int) : Bool × Option String :=
  if order < Recipient.MIN_SIGNING_ORDER then
    (false, some "Signing order must be at least 1")
  else
    (true, none)

/-- `Recipient.can_sign` (`envelope.py` lines 429-445): role must be
`signer` and status must not be `signed` or `declined`. -/
def Recipient.can_sign (r : Recipient) : Bool × Option String :=
  if r.role ≠ RecipientRole.signer then
    (false, some ("Recipient role " ++ r.role.valueStr ++ " cannot sign"))
  else if r.status = RecipientStatus.signed then
    (false, some "Recipient has already signed")
  else if r.status = RecipientStatus.declined then
    (false, some "Recipient has declined")
  else
    (true, none)

/-- `Recipient.mark_sent` (`envelope.py` lines 447-456): unconditional. -/
def Recipient.mark_sent (r : Recipient) (now : Int) : Recipient :=
  { r with status := RecipientStatus.sent, sentAt := some now, updatedAt := now }

/-- `Recipient.mark_viewed` (`envelope.py` lines 458-471): transition to
`viewed` only from `pending`/`sent`; set `viewed_at` only if unset. -/
def Recipient.mark_viewed (r : Recipient) (now : Int) : Recipient :=
  let r1 :=
    if r.status = RecipientStatus.pending ∨ r.status = RecipientStatus.sent then
      { r with status := RecipientStatus.viewed }
    else
      r
  let r2 := if r1.viewedAt = none then { r1 with viewedAt := some now } else r1
  { r2 with updatedAt := now }

/-- `Recipient.mark_signed` (`envelope.py` lines 473-489): raises
`ValueError` when `can_sign` fails. -/
def Recipient.mark_signed (r : Recipient) (now : Int) : Except String Recipient :=
  match r.can_sign with
  | (false, err) => .error (err.getD "")
  | (true, _) =>
    .ok { r with status := RecipientStatus.signed, signedAt := some now, updatedAt := now }

/-- `Recipient.mark_declined` (`envelope.py` lines 491-505): the only
precondition is a non-blank reason; the current status is not checked. -/
def Recipient.mark_declined (r : Recipient) (reason : String) (now : Int) :
    Except String Recipient :=
  if pyStrBlank reason then
    .error "Decline reason is required"
  else
    .ok { r with status := RecipientStatus.declined, declineReason := some reason,
                 declinedAt := some now, updatedAt := now }

/-- The persisted state visible to the service: the envelope rows and the
recipient rows of the database (`envelope_repository.py`).  Primary-key
uniqueness of `envelopeId` / `recipientId` is a database guarantee; where a
theorem needs it, it is an explicit `Nodup` hypothesis. -/
structure Store where
  envelopes : List Envelope
  recipients : List Recipient
deriving DecidableEq

/-- `EnvelopeRepository.get_envelope_by_id`: select by primary key. -/
def Store.get_envelope_by_id (s : Store) (eid : Nat) : Option Envelope :=
  s.envelopes.find? (fun e => decide (e.envelopeId = eid))

/-- `EnvelopeRepository.update_envelope`: overwrite the row with the given
primary key with the new field values. -/
def Store.update_envelope (s : Store) (e : Envelope) : Store :=
  { s with envelopes := s.envelopes.map (fun x => if x.envelopeId = e.envelopeId then e else x) }

/-- `EnvelopeRepository.get_recipient_by_id`: select by primary key. -/
def Store.get_recipient_by_id (s : Store) (rid : Nat) : Option Recipient :=
  s.recipients.find? (fun r => decide (r.recipientId = rid))

/-- `EnvelopeRepository.update_recipient`: overwrite the row with the given
primary key with the new field values. -/
def Store.update_recipient (s : Store) (r : Recipient) : Store :=
  { s with recipients := s.recipients.map (fun x => if x.recipientId = r.recipientId then r else x) }

/-- `EnvelopeRepository.create_recipient`: insert a new row. -/
def Store.create_recipient (s : Store) (r : Recipient) : Store :=
  { s with recipients := s.recipients ++ [r] }

/-- `EnvelopeRepository.get_recipients_by_envelope`: all recipients of the
envelope.  (The SQL `ORDER BY signing_order, created_at` only fixes the
presentation order of the returned rows; no service behaviour verified here
depends on it, so the store order is kept.) -/
def Store.get_recipients_by_envelope (s : Store) (eid : Nat) : List Recipient :=
  s.recipients.filter (fun r => decide (r.envelopeId = eid))

/-- `EnvelopeRepository.count_pending_recipients` (lines 537-560): count the
recipients of the envelope with role `signer` and status in
`{pending, sent, viewed}`. -/
def Store.count_pending_recipients (s : Store) (eid : Nat) : Nat :=
  (s.recipients.filter (fun r => decide (r.envelopeId = eid ∧
      r.role = RecipientRole.signer ∧
      (r.status = RecipientStatus.pending ∨ r.status = RecipientStatus.sent ∨
       r.status = RecipientStatus.viewed)))).length

/-- SQLAlchemy's `scalar_one_or_none`: none for no row, the row if unique,
an error (`MultipleResultsFound`) otherwise. -/
def scalarOneOrNone {α : Type} : List α → Except String (Option α)
  | [] => .ok none
  | [x] => .ok (some x)
  | _ => .error "Multiple rows were found when one or none was required"

/-- `EnvelopeRepository.get_recipient_by_access_code_hash` (lines 358-385):
select by `(envelope_id, access_code_hash)`. -/
def Store.get_recipient_by_access_code_hash (s : Store) (eid : Nat) (h : String) :
    Except String (Option Recipient) :=
  scalarOneOrNone (s.recipients.filter (fun r => decide (r.envelopeId = eid ∧
      r.accessCodeHash = some h)))

/-- The service's error classes (`envelope_service.py` lines 23-45), plus
`valueError` for an uncaught domain `ValueError` and `multipleResults` for
an uncaught SQLAlchemy `MultipleResultsFound`.  Per spec section 7 the
taxonomy is by kind: `validation` and `valueError` are both of the
ValidationError kind. -/
inductive Err
  | validation (msg : String)
  | notFound (msg : String)
  | permission (msg : String)
  | recipientNotFound (msg : String)
  | valueError (msg : String)
  | multipleResults (msg : String)
deriving DecidableEq

/-- The `for recipient in ...: recipient.mark_sent(); update_recipient(...)`
loop shared by `send_envelope` and `mark_recipient_signed`: mark each
recipient in the list as sent and persist it. -/
def markSentFold (s : Store) (rs : List Recipient) (now : Int) : Store :=
  rs.foldl (fun st r => st.update_recipient (r.mark_sent now)) s

/-- `min(r.signing_order for r in recipients if r.role == SIGNER)`:
the minimum signing order among signer-role recipients (none if there is
no signer, where Python's `min` would raise). -/
def minSignerOrder? (rs : List Recipient) : Option Int :=
  ((rs.filter (fun r => decide (r.role = RecipientRole.signer))).map
    (fun r => r.signingOrder)).min?

/-- `EnvelopeService.send_envelope` (`envelope_service.py` lines 329-397).
The conditional mark-as-sent loop over all recipients is written as an
unconditional loop over the recipients satisfying the condition (skipped
iterations change nothing). -/
def sendEnvelope (s : Store) (eid uid : Nat) (now : Int) :
    Except Err (Envelope × Store) :=
  match s.get_envelope_by_id eid with
  | none => .error (Err.notFound "Envelope not found")
  | some envelope =>
    if envelope.senderId ≠ uid then
      .error (Err.permission "Only sender can send envelope")
    else
      match envelope.can_send with
      | (false, err) => .error (Err.validation (err.getD ""))
      | (true, _) =>
        let recipients := s.get_recipients_by_envelope eid
        if recipients = [] then
          .error (Err.validation "Envelope must have at least one recipient")
        else if ¬ recipients.any (fun r => decide (r.role = RecipientRole.signer)) then
          .error (Err.validation "Envelope must have at least one signer")
        else
          match envelope.send now with
          | .error m => .error (Err.valueError m)
          | .ok e1 =>
            let s1 := s.update_envelope e1
            if e1.signingOrder = SigningOrder.sequential then
              match minSignerOrder? recipients with
              | none => .error (Err.valueError "min() arg is an empty sequence")
              | some minOrder =>
                .ok (e1, markSentFold s1
                  (recipients.filter (fun r => decide (r.signingOrder = minOrder ∧
                    r.role = RecipientRole.signer))) now)
            else
              .ok (e1, markSentFold s1 recipients now)

/-- `EnvelopeService.void_envelope` (`envelope_service.py` lines 399-438). -/
def voidEnvelope (s : Store) (eid uid : Nat) (reason : String) (now : Int) :
    Except Err (Envelope × Store) :=
  match s.get_envelope_by_id eid with
  | none => .error (Err.notFound "Envelope not found")
  | some envelope =>
    if envelope.senderId ≠ uid then
      .error (Err.permission "Only sender can void envelope")
    else
      match envelope.void reason now with
      | .error m => .error (Err.valueError m)
      | .ok e1 => .ok (e1, s.update_envelope e1)

/-- `EnvelopeService.add_recipient` (`envelope_service.py` lines 474-557).
`uuid4()` and the secure random access code are external inputs, passed as
`newId` and `accessCode`; only the SHA-256 hash of the code is stored,
the plaintext is kept on the returned row (shown once to the sender). -/
def addRecipient (sha256 : String → String) (s : Store) (eid senderId : Nat)
    (name email : String) (role : RecipientRole) (phone : Option String)
    (signingOrder : Int) (newId : Nat) (accessCode : String) (now : Int) :
    Except Err (Recipient × Store) :=
  match s.get_envelope_by_id eid with
  | none => .error (Err.notFound "Envelope not found")
  | some envelope =>
    if envelope.senderId ≠ senderId then
      .error (Err.permission "Only sender can add recipients")
    else if envelope.status ≠ EnvelopeStatus.draft then
      .error (Err.validation "Cannot add recipients to non-draft envelope")
    else
      match Recipient.validate_name name with
      | (false, err) => .error (Err.validation (err.getD ""))
      | (true, _) =>
        match Recipient.validate_email email with
        | (false, err) => .error (Err.validation (err.getD ""))
        | (true, _) =>
          match Recipient.validate_signing_order signingOrder with
          | (false, err) => .error (Err.validation (err.getD ""))
          | (true, _) =>
            if (s.get_recipients_by_envelope eid).length ≥ Envelope.MAX_RECIPIENTS then
              .error (Err.validation "Cannot exceed 100 recipients per envelope")
            else
              let r : Recipient :=
                { recipientId := newId, envelopeId := eid, name := name,
                  email := email, role := role, signingOrder := signingOrder,
                  status := RecipientStatus.pending, userId := none, phone := phone,
                  accessCode := some accessCode,
                  accessCodeHash := some (sha256 accessCode),
                  declineReason := none, sentAt := none, viewedAt := none,
                  signedAt := none, declinedAt := none,
                  createdAt := now, updatedAt := now }
              .ok (r, s.create_recipient r)

/-- The per-item body of `update_recipient_signing_order`: fetch each
recipient, check it belongs to the envelope, set the new order with no
range validation, persist, and collect the updated rows. -/
def updateOrdersLoop (eid : Nat) (now : Int) :
    Store → List (Nat × Int) → Except Err (List Recipient × Store)
  | s, [] => .ok ([], s)
  | s, (rid, k) :: rest =>
    match s.get_recipient_by_id rid with
    | none => .error (Err.recipientNotFound "Recipient not found")
    | some recipient =>
      if recipient.envelopeId ≠ eid then
        .error (Err.validation "Recipient does not belong to envelope")
      else
        let r1 := { recipient with signingOrder := k, updatedAt := now }
        match updateOrdersLoop eid now (s.update_recipient r1) rest with
        | .error e => .error e
        | .ok (rs, s') => .ok (r1 :: rs, s')

/-- `EnvelopeService.update_recipient_signing_order` (`envelope_service.py`
lines 559-616): sender-only, draft-only, membership-checked; the new
signing order value itself is not validated. -/
def updateRecipientSigningOrder (s : Store) (eid uid : Nat)
    (orders : List (Nat × Int)) (now : Int) :
    Except Err (List Recipient × Store) :=
  match s.get_envelope_by_id eid with
  | none => .error (Err.notFound "Envelope not found")
  | some envelope =>
    if envelope.senderId ≠ uid then
      .error (Err.permission "Only sender can update recipient order")
    else if envelope.status ≠ EnvelopeStatus.draft then
      .error (Err.validation "Cannot update recipients in non-draft envelope")
    else
      updateOrdersLoop eid now s orders

/-- `EnvelopeService.mark_recipient_viewed` (`envelope_service.py` lines
618-646): no envelope-status check; delegates to `Recipient.mark_viewed`. -/
def markRecipientViewed (s : Store) (eid rid : Nat) (now : Int) :
    Except Err (Recipient × Store) :=
  match s.get_recipient_by_id rid with
  | none => .error (Err.recipientNotFound "Recipient not found")
  | some recipient =>
    if recipient.envelopeId ≠ eid then
      .error (Err.validation "Recipient does not belong to this envelope")
    else
      let r1 := recipient.mark_viewed now
      .ok (r1, s.update_recipient r1)

/-- `EnvelopeService.mark_recipient_signed` (`envelope_service.py` lines
648-711): sign, persist, count remaining non-terminal signers; if zero,
complete the envelope; otherwise, for sequential envelopes, mark as sent
the pending signer recipients at the just-signed recipient's
signing order plus one.  There is no envelope-status precondition. -/
def markRecipientSigned (s : Store) (eid rid : Nat) (now : Int) :
    Except Err (Recipient × Bool × Store) :=
  match s.get_recipient_by_id rid with
  | none => .error (Err.recipientNotFound "Recipient not found")
  | some recipient =>
    if recipient.envelopeId ≠ eid then
      .error (Err.validation "Recipient does not belong to this envelope")
    else
      match recipient.mark_signed now with
      | .error m => .error (Err.valueError m)
      | .ok r1 =>
        let s1 := s.update_recipient r1
        if s1.count_pending_recipients eid = 0 then
          match s1.get_envelope_by_id eid with
          | none => .error (Err.notFound "Envelope not found")
          | some env => .ok (r1, true, s1.update_envelope (env.complete now))
        else
          match s1.get_envelope_by_id eid with
          | none => .error (Err.notFound "Envelope not found")
          | some env =>
            if env.signingOrder = SigningOrder.sequential then
              let recipients := s1.get_recipients_by_envelope eid
              let nextOrderRecipients := recipients.filter (fun x =>
                decide (x.signingOrder = recipient.signingOrder + 1 ∧
                  x.role = RecipientRole.signer ∧
                  x.status = RecipientStatus.pending))
              .ok (r1, false, markSentFold s1 nextOrderRecipients now)
            else
              .ok (r1, false, s1)

/-- `EnvelopeService.decline_envelope` (`envelope_service.py` lines
713-748): decline the recipient (non-blank reason required) and then
unconditionally decline the whole envelope.  There is no envelope-status
precondition and no recipient-status precondition. -/
def declineEnvelope (s : Store) (eid rid : Nat) (reason : String) (now : Int) :
    Except Err (Recipient × Store) :=
  match s.get_recipient_by_id rid with
  | none => .error (Err.recipientNotFound "Recipient not found")
  | some recipient =>
    if recipient.envelopeId ≠ eid then
      .error (Err.validation "Recipient does not belong to this envelope")
    else
      match recipient.mark_declined reason now with
      | .error m => .error (Err.valueError m)
      | .ok r1 =>
        let s1 := s.update_recipient r1
        match s1.get_envelope_by_id eid with
        | none => .error (Err.notFound "Envelope not found")
        | some env => .ok (r1, s1.update_envelope (env.decline now))

/-- `EnvelopeService.verify_recipient_access` (`envelope_service.py` lines
750-779): hash the provided code, look up by `(envelope_id, hash)`, then
require a case-insensitive email match; every mismatch yields `none`. -/
def verifyRecipientAccess (sha256 : String → String) (s : Store) (eid : Nat)
    (email accessCode : String) : Except Err (Option Recipient) :=
  match s.get_recipient_by_access_code_hash eid (sha256 accessCode) with
  | .error m => .error (Err.multipleResults m)
  | .ok none => .ok none
  | .ok (some recipient) =>
    if pyLower recipient.email ≠ pyLower email then
      .ok none
    else
      .ok (some recipient)

/-! ### General lemmas about the store operations -/

/-- `find?` commutes with a `map` whose function preserves the predicate. -/
theorem find?_map_pres {α : Type} (f : α → α) (p : α → Bool)
    (hf : ∀ x, p (f x) = p x) (l : List α) :
    (l.map f).find? p = (l.find? p).map f := by
  induction l with
  | nil => rfl
  | cons x l ih =>
    by_cases hx : p x = true
    · rw [List.map_cons, List.find?_cons_of_pos _ ((hf x).trans hx),
        List.find?_cons_of_pos _ hx, Option.map_some']
    · have hx' : ¬ p x = true := hx
      rw [List.map_cons, List.find?_cons_of_neg _ (by rw [hf x]; exact hx'),
        List.find?_cons_of_neg _ hx', ih]

/-- Reading a recipient after `update_recipient`. -/
theorem get_recipient_update (s : Store) (r : Recipient) (rid : Nat) :
    (s.update_recipient r).get_recipient_by_id rid
      = (s.get_recipient_by_id rid).map
          (fun x => if x.recipientId = r.recipientId then r else x) := by
  unfold Store.update_recipient Store.get_recipient_by_id
  apply find?_map_pres
  intro x
  by_cases h : x.recipientId = r.recipientId <;> simp [h]

/-- Reading an envelope after `update_envelope`. -/
theorem get_envelope_update (s : Store) (e : Envelope) (eid : Nat) :
    (s.update_envelope e).get_envelope_by_id eid
      = (s.get_envelope_by_id eid).map
          (fun x => if x.envelopeId = e.envelopeId then e else x) := by
  unfold Store.update_envelope Store.get_envelope_by_id
  apply find?_map_pres
  intro x
  by_cases h : x.envelopeId = e.envelopeId <;> simp [h]

/-- `update_recipient` does not touch the envelope rows. -/
theorem update_recipient_envelopes (s : Store) (r : Recipient) :
    (s.update_recipient r).envelopes = s.envelopes := rfl

/-- `update_envelope` does not touch the recipient rows. -/
theorem update_envelope_recipients (s : Store) (e : Envelope) :
    (s.update_envelope e).recipients = s.recipients := rfl

/-- `markSentFold` does not touch the envelope rows. -/
theorem markSentFold_envelopes (now : Int) :
    ∀ (L : List Recipient) (s : Store), (markSentFold s L now).envelopes = s.envelopes
  | [], _ => rfl
  | r :: L, s => by
    show (markSentFold (s.update_recipient (r.mark_sent now)) L now).envelopes = _
    rw [markSentFold_envelopes now L, update_recipient_envelopes]

/-- Reading an envelope is unaffected by `markSentFold`. -/
theorem get_envelope_markSentFold (now : Int) (L : List Recipient) (s : Store) (eid : Nat) :
    (markSentFold s L now).get_envelope_by_id eid = s.get_envelope_by_id eid := by
  unfold Store.get_envelope_by_id
  rw [markSentFold_envelopes]

/-- Reading a recipient through `markSentFold`: the fold of updates acts on
the fetched row pointwise. -/
theorem get_recipient_markSentFold (now : Int) (rid : Nat) :
    ∀ (L : List Recipient) (s : Store),
    (markSentFold s L now).get_recipient_by_id rid
      = (s.get_recipient_by_id rid).map (fun x =>
          L.foldl (fun y r =>
            if y.recipientId = r.recipientId then r.mark_sent now else y) x)
  | [], s => by
    show s.get_recipient_by_id rid = _
    cases s.get_recipient_by_id rid <;> rfl
  | r :: L, s => by
    show (markSentFold (s.update_recipient (r.mark_sent now)) L now).get_recipient_by_id rid = _
    rw [get_recipient_markSentFold now rid L, get_recipient_update]
    cases s.get_recipient_by_id rid with
    | none => rfl
    | some x =>
      simp only [Option.map_some', List.foldl_cons]
      by_cases h : x.recipientId = r.recipientId <;>
        simp [Recipient.mark_sent, h]

/-- Distinct primary keys make rows with equal ids equal. -/
theorem recipient_unique_of_nodup (l : List Recipient)
    (hnd : (l.map (fun x => x.recipientId)).Nodup) (x y : Recipient)
    (hx : x ∈ l) (hy : y ∈ l) (hxy : x.recipientId = y.recipientId) : x = y :=
  List.inj_on_of_nodup_map hnd hx hy hxy

/-- `find?` by primary key returns a member row itself, when keys are unique. -/
theorem find?_key_self (r : Recipient) (l : List Recipient)
    (hnd : (l.map (fun x => x.recipientId)).Nodup) (hr : r ∈ l) :
    l.find? (fun x => decide (x.recipientId = r.recipientId)) = some r := by
  induction l with
  | nil => cases hr
  | cons a t ih =>
    simp only [List.map_cons, List.nodup_cons] at hnd
    rcases List.mem_cons.mp hr with h | h
    · subst h
      rw [List.find?_cons_of_pos _ (by simp)]
    · by_cases ha : a.recipientId = r.recipientId
      · exact absurd (ha ▸ List.mem_map_of_mem (fun x => x.recipientId) h) hnd.1
      · rw [List.find?_cons_of_neg _ (by simpa using ha)]
        exact ih hnd.2 h

/-- Fetching a member row by its own primary key returns it, when primary
keys are unique. -/
theorem get_recipient_self (s : Store) (r : Recipient)
    (hnd : (s.recipients.map (fun x => x.recipientId)).Nodup)
    (hr : r ∈ s.recipients) :
    s.get_recipient_by_id r.recipientId = some r :=
  find?_key_self r s.recipients hnd hr

/-- The pointwise action of a mark-as-sent fold on a row none of whose ids
occur in the fold list: the row is untouched. -/
theorem foldl_mark_untouched (now : Int) (x : Recipient) :
    ∀ (L : List Recipient), (∀ r ∈ L, r.recipientId ≠ x.recipientId) →
    L.foldl (fun y r =>
      if y.recipientId = r.recipientId then r.mark_sent now else y) x = x
  | [], _ => rfl
  | r :: L, h => by
    rw [List.foldl_cons, if_neg (fun hc => h r (by simp) hc.symm)]
    exact foldl_mark_untouched now x L (fun r' hr' => h r' (by simp [hr']))

/-- Once a row has been marked sent, further iterations of the fold leave
it marked sent, provided every id collision in the list is the row
itself. -/
theorem foldl_mark_absorb (now : Int) (x : Recipient) :
    ∀ (L : List Recipient), (∀ r ∈ L, r.recipientId = x.recipientId → r = x) →
    L.foldl (fun y r =>
      if y.recipientId = r.recipientId then r.mark_sent now else y)
      (x.mark_sent now) = x.mark_sent now
  | [], _ => rfl
  | r :: L, h => by
    rw [List.foldl_cons]
    by_cases hc : (x.mark_sent now).recipientId = r.recipientId
    · have hrx : r = x := h r (by simp) (by simpa [Recipient.mark_sent] using hc.symm)
      rw [if_pos hc, hrx]
      exact foldl_mark_absorb now x L (fun r' hr' hid => h r' (by simp [hr']) hid)
    · rw [if_neg hc]
      exact foldl_mark_absorb now x L (fun r' hr' hid => h r' (by simp [hr']) hid)

/-- The pointwise action of a mark-as-sent fold, assuming all id collisions
in the fold list are the row itself: the row is marked sent exactly when
its id occurs in the list. -/
theorem foldl_mark_of_unique (now : Int) (x : Recipient) :
    ∀ (L : List Recipient), (∀ r ∈ L, r.recipientId = x.recipientId → r = x) →
    L.foldl (fun y r =>
      if y.recipientId = r.recipientId then r.mark_sent now else y) x
      = if x ∈ L then x.mark_sent now else x
  | [], _ => by simp
  | r :: L, h => by
    rw [List.foldl_cons]
    by_cases hc : x.recipientId = r.recipientId
    · have hrx : r = x := h r (by simp) hc.symm
      subst hrx
      rw [if_pos rfl, if_pos (by simp)]
      exact foldl_mark_absorb now r L (fun r' hr' hid => h r' (by simp [hr']) hid)
    · rw [if_neg hc]
      rw [foldl_mark_of_unique now x L (fun r' hr' hid => h r' (by simp [hr']) hid)]
      have hxr : ¬ x = r := fun hh => hc (hh ▸ rfl)
      by_cases hm : x ∈ L
      · rw [if_pos hm, if_pos (by simp [hm])]
      · rw [if_neg hm, if_neg (by simp [hxr, hm])]

/-- The predicate counted by `count_pending_recipients`. -/
theorem count_pending_def (s : Store) (eid : Nat) :
    s.count_pending_recipients eid
      = (s.recipients.filter (fun r => decide (r.envelopeId = eid ∧
          r.role = RecipientRole.signer ∧
          (r.status = RecipientStatus.pending ∨ r.status = RecipientStatus.sent ∨
           r.status = RecipientStatus.viewed)))).length := rfl

/-- `count_pending_recipients` only reads the recipient rows. -/
theorem count_pending_update_envelope (s : Store) (e : Envelope) (eid : Nat) :
    (s.update_envelope e).count_pending_recipients eid
      = s.count_pending_recipients eid := rfl

/-- Marking non-terminal signer recipients of the envelope as sent cannot
bring the pending-signer count to zero: each replacement row the fold
writes is itself a non-terminal signer of the envelope. -/
theorem count_pos_markSentFold (eid : Nat) (now : Int) :
    ∀ (L : List Recipient) (s : Store),
    (∀ r ∈ L, r.envelopeId = eid ∧ r.role = RecipientRole.signer) →
    s.count_pending_recipients eid ≠ 0 →
    (markSentFold s L now).count_pending_recipients eid ≠ 0
  | [], _, _, hs => hs
  | r :: L, s, hL, hs => by
    show (markSentFold (s.update_recipient (r.mark_sent now)) L now).count_pending_recipients eid ≠ 0
    apply count_pos_markSentFold eid now L _ (fun r' hr' => hL r' (by simp [hr']))
    rw [count_pending_def] at hs ⊢
    intro hzero
    apply hs
    rw [List.length_eq_zero] at hzero ⊢
    rw [List.filter_eq_nil_iff] at hzero ⊢
    intro a ha hpa
    rcases hL r (by simp) with ⟨hre, hrr⟩
    by_cases hid : a.recipientId = (r.mark_sent now).recipientId
    · exact hzero (r.mark_sent now)
        (by
          unfold Store.update_recipient
          exact List.mem_map.mpr ⟨a, ha, by rw [if_pos hid]⟩)
        (by simp [Recipient.mark_sent, hre, hrr])
    · exact hzero a
        (by
          unfold Store.update_recipient
          exact List.mem_map.mpr ⟨a, ha, by rw [if_neg hid]⟩)
        hpa

/-! ### Concrete fixtures for the witness instances -/

/-- A sample envelope of id 1, sender 10, in the given status and signing
order mode. -/
def sampleEnv (st : EnvelopeStatus) (ord : SigningOrder) : Envelope :=
  { envelopeId := 1, senderId := 10, subject := "Contract", message := none,
    status := st, signingOrder := ord, expirationDays := 30, expiresAt := none,
    voidReason := none, createdAt := 0, sentAt := none, completedAt := none,
    voidedAt := none, expiredAt := none, updatedAt := 0 }

/-- A sample recipient of envelope 1 with the given id, role, signing order
and status. -/
def sampleRec (rid : Nat) (role : RecipientRole) (ord : Int) (st : RecipientStatus) : Recipient :=
  { recipientId := rid, envelopeId := 1, name := "R", email := "r@x.com",
    role := role, signingOrder := ord, status := st, userId := none, phone := none,
    accessCode := none, accessCodeHash := none, declineReason := none,
    sentAt := none, viewedAt := none, signedAt := none, declinedAt := none,
    createdAt := 0, updatedAt := 0 }

/-! ### C1 -/

/-- C1: immediately after every successful `MarkRecipientSigned` call, the
envelope transitions to completed (with `completed_at` set to the call time
and the call returning `envelopeCompleted = true`) if and only if the
number of recipients of that envelope with role `signer` and status in
`{pending, sent, viewed}` is zero; recipients with role `cc` or `approver`
never enter that count, and when the call does not complete the envelope
the envelope rows are untouched. -/
theorem c1_completion_iff_no_pending_signers (s : Store) (eid rid : Nat) (now : Int)
    (r1 : Recipient) (did : Bool) (s' : Store)
    (h : markRecipientSigned s eid rid now = .ok (r1, did, s')) :
    (did = true ↔ s'.count_pending_recipients eid = 0)
    ∧ (did = true → ∃ e, s'.get_envelope_by_id eid = some e ∧
        e.status = EnvelopeStatus.completed ∧ e.completedAt = some now)
    ∧ (did = false → s'.envelopes = s.envelopes) := by
  unfold markRecipientSigned at h
  split at h
  · exact absurd h (by simp)
  · split at h
    · exact absurd h (by simp)
    · split at h
      · exact absurd h (by simp)
      · rename_i recipient hrec hmem r0 hsig
        simp only [] at h
        split at h
        · rename_i hcount
          split at h
          · exact absurd h (by simp)
          · rename_i env henv
            simp only [Except.ok.injEq, Prod.mk.injEq] at h
            obtain ⟨hr1, hdid, hs'⟩ := h
            subst hdid
            subst hs'
            refine ⟨by simp [count_pending_update_envelope, hcount], fun _ => ?_, by simp⟩
            refine ⟨env.complete now, ?_, by simp [Envelope.complete], by simp [Envelope.complete]⟩
            rw [get_envelope_update, henv, Option.map_some']
            simp [Envelope.complete]
        · rename_i hcount
          split at h
          · exact absurd h (by simp)
          · rename_i env henv
            split at h
            · rename_i hseq
              simp only [Except.ok.injEq, Prod.mk.injEq] at h
              obtain ⟨hr1, hdid, hs'⟩ := h
              subst hdid
              subst hs'
              refine ⟨?_, by simp, fun _ => ?_⟩
              · constructor
                · intro hc
                  exact absurd hc (by simp)
                · intro hc
                  exfalso
                  refine count_pos_markSentFold eid now _ _ ?_ hcount hc
                  intro x hx
                  unfold Store.get_recipients_by_envelope at hx
                  rw [List.mem_filter] at hx
                  obtain ⟨hx1, hx2⟩ := hx
                  rw [List.mem_filter] at hx1
                  obtain ⟨_, hx3⟩ := hx1
                  simp only [decide_eq_true_eq] at hx2 hx3
                  exact ⟨hx3, hx2.2.1⟩
              · rw [markSentFold_envelopes, update_recipient_envelopes]
            · simp only [Except.ok.injEq, Prod.mk.injEq] at h
              obtain ⟨hr1, hdid, hs'⟩ := h
              subst hdid
              subst hs'
              exact ⟨by simp [hcount], by simp, fun _ => rfl⟩

/-- The pre-state for the C1 witness: a parallel envelope with two
non-terminal signers. -/
def c1Wstore : Store :=
  Store.mk [sampleEnv EnvelopeStatus.sent SigningOrder.parallel]
    [sampleRec 2 RecipientRole.signer 1 RecipientStatus.sent,
     sampleRec 3 RecipientRole.signer 1 RecipientStatus.sent]

/-- The recipient row returned by the C1 witness call. -/
def c1Wrec : Recipient :=
  { sampleRec 2 RecipientRole.signer 1 RecipientStatus.sent with
    status := RecipientStatus.signed, signedAt := some 5, updatedAt := 5 }

/-- The post-state of the C1 witness call. -/
def c1Wstore' : Store :=
  Store.mk [sampleEnv EnvelopeStatus.sent SigningOrder.parallel]
    [c1Wrec, sampleRec 3 RecipientRole.signer 1 RecipientStatus.sent]

/-- Witness for C1: one of two signers signs; the call does not complete
the envelope and the pending-signer count of the resulting store is
nonzero, and the envelope rows are untouched. -/
theorem c1_completion_iff_no_pending_signers_witness :
    markRecipientSigned c1Wstore 1 2 5 = Except.ok (c1Wrec, false, c1Wstore')
    ∧ ((false = true ↔ c1Wstore'.count_pending_recipients 1 = 0)
        ∧ (false = true → ∃ e, c1Wstore'.get_envelope_by_id 1 = some e ∧
            e.status = EnvelopeStatus.completed ∧ e.completedAt = some 5)
        ∧ (false = false → c1Wstore'.envelopes = c1Wstore.envelopes)) :=
  ⟨by decide, c1_completion_iff_no_pending_signers c1Wstore 1 2 5 c1Wrec false c1Wstore' (by decide)⟩

/-! ### C2 -/

/-- Post-state recipient of the C2 sign-on-declined-envelope call. -/
def c2SignedRec : Recipient :=
  { sampleRec 2 RecipientRole.signer 1 RecipientStatus.sent with
    status := RecipientStatus.signed, signedAt := some 5, updatedAt := 5 }

/-- Post-state envelope of the C2 sign-on-declined-envelope call: the
declined envelope has been moved to completed. -/
def c2CompletedEnv : Envelope :=
  { sampleEnv EnvelopeStatus.declined SigningOrder.parallel with
    status := EnvelopeStatus.completed, completedAt := some 5, updatedAt := 5 }

/-- Post-state envelope of the C2 void-on-declined-envelope call. -/
def c2VoidedEnv : Envelope :=
  { sampleEnv EnvelopeStatus.declined SigningOrder.parallel with
    status := EnvelopeStatus.voided, voidReason := some "mistake",
    voidedAt := some 5, updatedAt := 5 }

/-- Post-state recipient of the C2 view-on-completed-envelope call. -/
def c2ViewedRec : Recipient :=
  { sampleRec 2 RecipientRole.signer 1 RecipientStatus.sent with
    status := RecipientStatus.viewed, viewedAt := some 5, updatedAt := 5 }

/-- Post-state recipient of the C2 decline-on-completed-envelope call. -/
def c2DeclinedRec : Recipient :=
  { sampleRec 2 RecipientRole.signer 1 RecipientStatus.sent with
    status := RecipientStatus.declined, declineReason := some "no thanks",
    declinedAt := some 7, updatedAt := 7 }

/-- Post-state envelope of the C2 decline-on-completed-envelope call. -/
def c2ReDeclinedEnv : Envelope :=
  { sampleEnv EnvelopeStatus.completed SigningOrder.parallel with
    status := EnvelopeStatus.declined, updatedAt := 7 }

/-- C2 fails on the code: the service performs no envelope-status check in
`mark_recipient_signed`, `mark_recipient_viewed` or `decline_envelope`, and
`can_void` does not block `declined`.  Concretely: (1) signing the sole
non-terminal signer of a *declined* envelope succeeds and transitions the
declined envelope to *completed*; (2) voiding a declined envelope
succeeds; (3) marking a recipient of a *completed* envelope viewed
succeeds and mutates the recipient; (4) declining a recipient of a
completed envelope succeeds and moves the completed envelope to declined.
Each of these contradicts the claim that every such attempt fails with a
ValidationError and leaves the state unchanged. -/
theorem c2_terminal_envelope_still_mutable :
    markRecipientSigned (Store.mk [sampleEnv EnvelopeStatus.declined SigningOrder.parallel]
        [sampleRec 2 RecipientRole.signer 1 RecipientStatus.sent]) 1 2 5
      = Except.ok (c2SignedRec, true, Store.mk [c2CompletedEnv] [c2SignedRec])
    ∧ voidEnvelope (Store.mk [sampleEnv EnvelopeStatus.declined SigningOrder.parallel] []) 1 10 "mistake" 5
      = Except.ok (c2VoidedEnv, Store.mk [c2VoidedEnv] [])
    ∧ markRecipientViewed (Store.mk [sampleEnv EnvelopeStatus.completed SigningOrder.parallel]
        [sampleRec 2 RecipientRole.signer 1 RecipientStatus.sent]) 1 2 5
      = Except.ok (c2ViewedRec, Store.mk [sampleEnv EnvelopeStatus.completed SigningOrder.parallel] [c2ViewedRec])
    ∧ declineEnvelope (Store.mk [sampleEnv EnvelopeStatus.completed SigningOrder.parallel]
        [sampleRec 2 RecipientRole.signer 1 RecipientStatus.sent]) 1 2 "no thanks" 7
      = Except.ok (c2DeclinedRec, Store.mk [c2ReDeclinedEnv] [c2DeclinedRec]) := by
  refine ⟨by decide, by decide, by decide, by decide⟩

/-! ### C3 -/

/-- Field-level description of a successful `Envelope.send`: status becomes
`sent`, `sent_at` is the call time, and `expires_at` is set to
`sent_at + timedelta(days = expiration_days)` exactly when it was unset;
the other fields relevant to the fan-out are preserved, and success
implies the envelope was a draft. -/
theorem Envelope.send_fields (e : Envelope) (now : Int) (e1 : Envelope)
    (h : e.send now = .ok e1) :
    e1.signingOrder = e.signingOrder ∧ e1.status = EnvelopeStatus.sent ∧
    e1.sentAt = some now ∧ e1.expirationDays = e.expirationDays ∧
    (e.expiresAt = none →
      e1.expiresAt = some (now + e.expirationDays * microsecondsPerDay)) ∧
    (∀ t, e.expiresAt = some t → e1.expiresAt = some t) ∧
    e1.envelopeId = e.envelopeId ∧ e1.senderId = e.senderId ∧
    e.status = EnvelopeStatus.draft := by
  unfold Envelope.send Envelope.can_send at h
  split at h
  · exact absurd h (by simp)
  · rename_i heq
    simp only [] at h
    split at heq
    · exact absurd heq (by simp)
    · split at h <;> (rw [Except.ok.injEq] at h; subst h; simp_all)

/-- `update_envelope` does not affect recipient reads. -/
theorem get_recipient_update_envelope (s : Store) (e : Envelope) (rid : Nat) :
    (s.update_envelope e).get_recipient_by_id rid = s.get_recipient_by_id rid := rfl

/-- C3: a successful `SendEnvelope` on an envelope marks recipients as
follows.  If the signing order is `parallel`, every recipient of the
envelope (regardless of role) is marked sent (status `sent`, `sent_at`
set to the call time).  If it is `sequential`, exactly the recipients
whose role is `signer` and whose `signing_order` equals the minimum
signing order among signer-role recipients are marked sent, and every
other recipient of the envelope (including all `cc`/`approver`
recipients) keeps its row — in particular its `pending` status —
unchanged. -/
theorem c3_send_fanout (s : Store) (eid uid : Nat) (now : Int)
    (e' : Envelope) (s' : Store) (env : Envelope)
    (hnd : (s.recipients.map (fun x => x.recipientId)).Nodup)
    (henv : s.get_envelope_by_id eid = some env)
    (h : sendEnvelope s eid uid now = .ok (e', s'))
    (r : Recipient) (hr : r ∈ s.recipients) (hre : r.envelopeId = eid) :
    ((r.mark_sent now).status = RecipientStatus.sent ∧ (r.mark_sent now).sentAt = some now)
    ∧ (env.signingOrder = SigningOrder.parallel →
        s'.get_recipient_by_id r.recipientId = some (r.mark_sent now))
    ∧ (∀ m, env.signingOrder = SigningOrder.sequential →
        minSignerOrder? (s.get_recipients_by_envelope eid) = some m →
        ((r.signingOrder = m ∧ r.role = RecipientRole.signer) →
          s'.get_recipient_by_id r.recipientId = some (r.mark_sent now))
        ∧ (¬ (r.signingOrder = m ∧ r.role = RecipientRole.signer) →
          s'.get_recipient_by_id r.recipientId = some r)) := by
  unfold sendEnvelope at h
  rw [henv] at h
  simp only [] at h
  split at h
  · exact absurd h (by simp)
  · split at h
    · exact absurd h (by simp)
    · split at h
      · exact absurd h (by simp)
      · split at h
        · exact absurd h (by simp)
        · split at h
          · exact absurd h (by simp)
          · rename_i e1 hsend
            have hfields := Envelope.send_fields env now e1 hsend
            split at h
            · rename_i hseq
              split at h
              · exact absurd h (by simp)
              · rename_i m0 hm0
                simp only [Except.ok.injEq, Prod.mk.injEq] at h
                obtain ⟨he', hs'⟩ := h
                subst hs'
                have henvseq : env.signingOrder = SigningOrder.sequential :=
                  hfields.1 ▸ hseq
                refine ⟨⟨rfl, rfl⟩, ?_, ?_⟩
                · intro hp
                  rw [hp] at henvseq
                  exact absurd henvseq (by simp)
                · intro m hseq2 hm
                  rw [hm0] at hm
                  injection hm with hmm
                  subst hmm
                  have huniq : ∀ x ∈ ((s.get_recipients_by_envelope eid).filter
                      (fun x => decide (x.signingOrder = m0 ∧ x.role = RecipientRole.signer))),
                      x.recipientId = r.recipientId → x = r := by
                    intro x hx hid
                    have hx1 : x ∈ s.recipients :=
                      (List.mem_filter.mp (List.mem_filter.mp hx).1).1
                    exact recipient_unique_of_nodup s.recipients hnd x r hx1 hr hid
                  rw [get_recipient_markSentFold, get_recipient_update_envelope,
                    get_recipient_self s r hnd hr, Option.map_some',
                    foldl_mark_of_unique now r _ huniq]
                  constructor
                  · intro hcond
                    have hmemL : r ∈ (s.get_recipients_by_envelope eid).filter
                        (fun x => decide (x.signingOrder = m0 ∧ x.role = RecipientRole.signer)) := by
                      rw [List.mem_filter]
                      refine ⟨?_, by simpa using hcond⟩
                      unfold Store.get_recipients_by_envelope
                      rw [List.mem_filter]
                      exact ⟨hr, by simpa using hre⟩
                    rw [if_pos hmemL]
                  · intro hcond
                    have hnomem : r ∉ (s.get_recipients_by_envelope eid).filter
                        (fun x => decide (x.signingOrder = m0 ∧ x.role = RecipientRole.signer)) := by
                      intro hmem
                      exact hcond (by simpa using (List.mem_filter.mp hmem).2)
                    rw [if_neg hnomem]
            · rename_i hpar
              simp only [Except.ok.injEq, Prod.mk.injEq] at h
              obtain ⟨he', hs'⟩ := h
              subst hs'
              refine ⟨⟨rfl, rfl⟩, ?_, ?_⟩
              · intro _
                have huniq : ∀ x ∈ s.get_recipients_by_envelope eid,
                    x.recipientId = r.recipientId → x = r := by
                  intro x hx hid
                  have hx1 : x ∈ s.recipients := (List.mem_filter.mp hx).1
                  exact recipient_unique_of_nodup s.recipients hnd x r hx1 hr hid
                have hmemL : r ∈ s.get_recipients_by_envelope eid := by
                  unfold Store.get_recipients_by_envelope
                  rw [List.mem_filter]
                  exact ⟨hr, by simpa using hre⟩
                rw [get_recipient_markSentFold, get_recipient_update_envelope,
                  get_recipient_self s r hnd hr, Option.map_some',
                  foldl_mark_of_unique now r _ huniq, if_pos hmemL]
              · intro m hseq2 hm
                rw [hseq2] at hfields
                exact absurd hfields.1 hpar

/-- Pre-state for the C3 witness: Scenario B, a draft sequential envelope
with signers at signing orders 1, 1, 2. -/
def c3Wstore : Store :=
  Store.mk [sampleEnv EnvelopeStatus.draft SigningOrder.sequential]
    [sampleRec 2 RecipientRole.signer 1 RecipientStatus.pending,
     sampleRec 3 RecipientRole.signer 1 RecipientStatus.pending,
     sampleRec 4 RecipientRole.signer 2 RecipientStatus.pending]

/-- The envelope returned by the C3 witness send. -/
def c3Wenv1 : Envelope :=
  { sampleEnv EnvelopeStatus.draft SigningOrder.sequential with
    status := EnvelopeStatus.sent, sentAt := some 7,
    expiresAt := some 2592000000007, updatedAt := 7 }

/-- Post-state of the C3 witness send: the two order-1 signers are sent,
the order-2 signer is untouched. -/
def c3Wstore' : Store :=
  Store.mk [c3Wenv1]
    [(sampleRec 2 RecipientRole.signer 1 RecipientStatus.pending).mark_sent 7,
     (sampleRec 3 RecipientRole.signer 1 RecipientStatus.pending).mark_sent 7,
     sampleRec 4 RecipientRole.signer 2 RecipientStatus.pending]

/-- Witness for C3 (Scenario B): sending the sequential envelope marks the
order-1 signer with id 2 as sent and leaves the order-2 signer with id 4
pending. -/
theorem c3_send_fanout_witness :
    sendEnvelope c3Wstore 1 10 7 = Except.ok (c3Wenv1, c3Wstore')
    ∧ c3Wstore'.get_recipient_by_id 4
        = some (sampleRec 4 RecipientRole.signer 2 RecipientStatus.pending)
    ∧ c3Wstore'.get_recipient_by_id 2
        = some ((sampleRec 2 RecipientRole.signer 1 RecipientStatus.pending).mark_sent 7) :=
  ⟨by decide,
   ((c3_send_fanout c3Wstore 1 10 7 c3Wenv1 c3Wstore'
      (sampleEnv EnvelopeStatus.draft SigningOrder.sequential)
      (by decide) (by decide) (by decide)
      (sampleRec 4 RecipientRole.signer 2 RecipientStatus.pending)
      (by decide) (by decide)).2.2 1 rfl (by decide)).2 (by decide),
   ((c3_send_fanout c3Wstore 1 10 7 c3Wenv1 c3Wstore'
      (sampleEnv EnvelopeStatus.draft SigningOrder.sequential)
      (by decide) (by decide) (by decide)
      (sampleRec 2 RecipientRole.signer 1 RecipientStatus.pending)
      (by decide) (by decide)).2.2 1 rfl (by decide)).1 (by decide)⟩

/-! ### C4 -/

/-- C4: when a `MarkRecipientSigned` call succeeds without completing the
envelope and the envelope is sequential, then, among the other recipients,
exactly those whose `signing_order` equals the just-signed recipient's
`signing_order + 1`, whose role is `signer` and whose status is `pending`
are marked sent; every other recipient's row is unchanged. -/
theorem c4_sequential_advance (s : Store) (eid rid : Nat) (now : Int)
    (r1 : Recipient) (s' : Store) (r0 : Recipient) (env : Envelope)
    (hnd : (s.recipients.map (fun x => x.recipientId)).Nodup)
    (hr0 : s.get_recipient_by_id rid = some r0)
    (henv : s.get_envelope_by_id eid = some env)
    (hseq : env.signingOrder = SigningOrder.sequential)
    (h : markRecipientSigned s eid rid now = .ok (r1, false, s')) :
    ∀ x ∈ s.recipients, x.recipientId ≠ rid →
      ((x.envelopeId = eid ∧ x.signingOrder = r0.signingOrder + 1 ∧
          x.role = RecipientRole.signer ∧ x.status = RecipientStatus.pending) →
        s'.get_recipient_by_id x.recipientId = some (x.mark_sent now))
      ∧ (¬ (x.envelopeId = eid ∧ x.signingOrder = r0.signingOrder + 1 ∧
          x.role = RecipientRole.signer ∧ x.status = RecipientStatus.pending) →
        s'.get_recipient_by_id x.recipientId = some x) := by
  unfold markRecipientSigned at h
  rw [hr0] at h
  simp only [] at h
  split at h
  · exact absurd h (by simp)
  · split at h
    · exact absurd h (by simp)
    · rename_i rs hsig
      split at h
      · split at h
        · exact absurd h (by simp)
        · exact absurd h (by simp)
      · rename_i hcount
        split at h
        · exact absurd h (by simp)
        · rename_i env2 henv2
          have henv2' : env2 = env := by
            have : (s.update_recipient rs).get_envelope_by_id eid
                = s.get_envelope_by_id eid := rfl
            rw [this, henv] at henv2
            exact (Option.some.inj henv2).symm
          split at h
          · rename_i hseq2
            simp only [Except.ok.injEq, Prod.mk.injEq] at h
            obtain ⟨hr1, -, hs'⟩ := h
            subst hs'
            -- facts about ids
            have hridr0 : r0.recipientId = rid := by
              have := List.find?_some hr0
              simpa using this
            have hrsid : rs.recipientId = rid := by
              unfold Recipient.mark_signed at hsig
              split at hsig
              · exact absurd hsig (by simp)
              · have := Except.ok.inj hsig
                rw [← this]
                exact hridr0
            intro x hx hxid
            -- x survives the sign update untouched
            have hxs1 : (s.update_recipient rs).get_recipient_by_id x.recipientId = some x := by
              rw [get_recipient_update, get_recipient_self s x hnd hx, Option.map_some',
                if_neg (by rw [hrsid]; exact hxid)]
            have hxmem1 : x ∈ (s.update_recipient rs).recipients := by
              unfold Store.update_recipient
              refine List.mem_map.mpr ⟨x, hx, ?_⟩
              rw [if_neg (by rw [hrsid]; exact hxid)]
            have huniq : ∀ y ∈ (((s.update_recipient rs).get_recipients_by_envelope eid).filter
                (fun y => decide (y.signingOrder = r0.signingOrder + 1 ∧
                  y.role = RecipientRole.signer ∧ y.status = RecipientStatus.pending))),
                y.recipientId = x.recipientId → y = x := by
              intro y hy hyid
              have hy1 : y ∈ (s.update_recipient rs).recipients :=
                (List.mem_filter.mp (List.mem_filter.mp hy).1).1
              obtain ⟨z, hz, hzy⟩ := List.mem_map.mp hy1
              by_cases hzc : z.recipientId = rs.recipientId
              · rw [if_pos hzc] at hzy
                subst hzy
                exact absurd (hrsid ▸ hyid) (fun hh => hxid hh.symm)
              · rw [if_neg hzc] at hzy
                subst hzy
                exact recipient_unique_of_nodup s.recipients hnd z x hz hx hyid
            rw [get_recipient_markSentFold, hxs1, Option.map_some',
              foldl_mark_of_unique now x _ huniq]
            constructor
            · intro hcond
              have hmemL : x ∈ (((s.update_recipient rs).get_recipients_by_envelope eid).filter
                  (fun y => decide (y.signingOrder = r0.signingOrder + 1 ∧
                    y.role = RecipientRole.signer ∧ y.status = RecipientStatus.pending))) := by
                rw [List.mem_filter]
                refine ⟨?_, by simp [hcond.2.1, hcond.2.2.1, hcond.2.2.2]⟩
                unfold Store.get_recipients_by_envelope
                rw [List.mem_filter]
                exact ⟨hxmem1, by simp [hcond.1]⟩
              rw [if_pos hmemL]
            · intro hcond
              have hnomem : x ∉ (((s.update_recipient rs).get_recipients_by_envelope eid).filter
                  (fun y => decide (y.signingOrder = r0.signingOrder + 1 ∧
                    y.role = RecipientRole.signer ∧ y.status = RecipientStatus.pending))) := by
                intro hmem
                rw [List.mem_filter] at hmem
                obtain ⟨hmem1, hmem2⟩ := hmem
                rw [Store.get_recipients_by_envelope, List.mem_filter] at hmem1
                simp only [decide_eq_true_eq] at hmem1 hmem2
                exact hcond ⟨hmem1.2, hmem2.1, hmem2.2.1, hmem2.2.2⟩
              rw [if_neg hnomem]
          · rename_i hpar
            exact absurd (henv2' ▸ hseq) hpar

/-- Scenario C pre-state: a sent sequential envelope with signers at
orders 1, 1, 2 where the order-1 signers are `sent` and the order-2
signer is `pending`. -/
def c4S0 : Store :=
  Store.mk [sampleEnv EnvelopeStatus.sent SigningOrder.sequential]
    [sampleRec 2 RecipientRole.signer 1 RecipientStatus.sent,
     sampleRec 3 RecipientRole.signer 1 RecipientStatus.sent,
     sampleRec 4 RecipientRole.signer 2 RecipientStatus.pending]

/-- Recipient 2 after signing at time 11. -/
def c4r2signed : Recipient :=
  { sampleRec 2 RecipientRole.signer 1 RecipientStatus.sent with
    status := RecipientStatus.signed, signedAt := some 11, updatedAt := 11 }

/-- Recipient 3 after signing at time 12. -/
def c4r3signed : Recipient :=
  { sampleRec 3 RecipientRole.signer 1 RecipientStatus.sent with
    status := RecipientStatus.signed, signedAt := some 12, updatedAt := 12 }

/-- The order-2 signer after the sequential advance marks it sent. -/
def c4r4sent : Recipient :=
  (sampleRec 4 RecipientRole.signer 2 RecipientStatus.pending).mark_sent 11

/-- State after the first order-1 signer signs. -/
def c4S1 : Store :=
  Store.mk [sampleEnv EnvelopeStatus.sent SigningOrder.sequential]
    [c4r2signed, sampleRec 3 RecipientRole.signer 1 RecipientStatus.sent, c4r4sent]

/-- State after the second order-1 signer signs. -/
def c4S2 : Store :=
  Store.mk [sampleEnv EnvelopeStatus.sent SigningOrder.sequential]
    [c4r2signed, c4r3signed, c4r4sent]

/-- Witness for C4 (Scenario C): after both order-1 signers sign, the
order-2 signer has status `sent` and the envelope remains `sent` (not
completed); the second call leaves the already-advanced order-2 signer
untouched, by the theorem. -/
theorem c4_sequential_advance_witness :
    markRecipientSigned c4S0 1 2 11 = Except.ok (c4r2signed, false, c4S1)
    ∧ markRecipientSigned c4S1 1 3 12 = Except.ok (c4r3signed, false, c4S2)
    ∧ c4S2.get_recipient_by_id 4 = some c4r4sent
    ∧ c4r4sent.status = RecipientStatus.sent
    ∧ c4S2.get_envelope_by_id 1 = some (sampleEnv EnvelopeStatus.sent SigningOrder.sequential) :=
  ⟨by decide, by decide,
   ((c4_sequential_advance c4S1 1 3 12 c4r3signed c4S2
      (sampleRec 3 RecipientRole.signer 1 RecipientStatus.sent)
      (sampleEnv EnvelopeStatus.sent SigningOrder.sequential)
      (by decide) (by decide) (by decide) rfl (by decide))
     c4r4sent (by decide) (by decide)).2 (by decide),
   by decide, by decide⟩

/-! ### C5 -/

/-- Scenario E pre-state: a sent parallel envelope with two sent signers. -/
def c5S0 : Store :=
  Store.mk [sampleEnv EnvelopeStatus.sent SigningOrder.parallel]
    [sampleRec 2 RecipientRole.signer 1 RecipientStatus.sent,
     sampleRec 3 RecipientRole.signer 1 RecipientStatus.sent]

/-- Recipient 2 after declining with reason "busy" at time 4. -/
def c5r2declined : Recipient :=
  { sampleRec 2 RecipientRole.signer 1 RecipientStatus.sent with
    status := RecipientStatus.declined, declineReason := some "busy",
    declinedAt := some 4, updatedAt := 4 }

/-- The envelope after the decline: status `declined`. -/
def c5DeclinedEnv : Envelope :=
  { sampleEnv EnvelopeStatus.sent SigningOrder.parallel with
    status := EnvelopeStatus.declined, updatedAt := 4 }

/-- State after recipient 2 declines: envelope declined, recipient 3
untouched. -/
def c5S1 : Store :=
  Store.mk [c5DeclinedEnv]
    [c5r2declined, sampleRec 3 RecipientRole.signer 1 RecipientStatus.sent]

/-- Recipient 3 after signing at time 9. -/
def c5r3signed : Recipient :=
  { sampleRec 3 RecipientRole.signer 1 RecipientStatus.sent with
    status := RecipientStatus.signed, signedAt := some 9, updatedAt := 9 }

/-- The declined envelope after recipient 3 signs: moved to `completed`. -/
def c5CompletedEnv : Envelope :=
  { c5DeclinedEnv with
    status := EnvelopeStatus.completed
    completedAt := some 9
    updatedAt := 9 }

/-- State after recipient 3 signs the declined envelope. -/
def c5S2 : Store :=
  Store.mk [c5CompletedEnv] [c5r2declined, c5r3signed]

/-- C5: the positive parts of the claim hold on this trace — a decline
with a non-empty reason marks the recipient declined (recording
`decline_reason` and `declined_at`) and immediately sets the whole
envelope to `declined`, leaving the other recipient's row untouched, and
a blank reason fails with the ValueError "Decline reason is required" —
but the final clause of the claim fails on the code: the remaining signer
can still sign, and because `mark_recipient_signed` performs no
envelope-status check, the *declined* envelope then transitions to
`completed` with `envelopeCompleted = true`. -/
theorem c5_decline_then_sign_completes :
    declineEnvelope c5S0 1 2 "busy" 4 = Except.ok (c5r2declined, c5S1)
    ∧ declineEnvelope c5S0 1 2 "" 4
        = Except.error (Err.valueError "Decline reason is required")
    ∧ declineEnvelope c5S0 1 2 "   " 4
        = Except.error (Err.valueError "Decline reason is required")
    ∧ markRecipientSigned c5S1 1 3 9 = Except.ok (c5r3signed, true, c5S2)
    ∧ c5CompletedEnv.status = EnvelopeStatus.completed :=
  ⟨by decide, by decide, by decide, by decide, by decide⟩

/-! ### C6 -/

/-- C6: `SendEnvelope` raises PermissionError when the caller is not the
envelope's sender; it raises ValidationError when the envelope's status is
not `draft`, when the envelope has zero recipients, or when no recipient
has role `signer`; on success it sets status `sent`, sets `sent_at` to the
call time, and sets `expires_at` to `sent_at` plus `expiration_days` if
and only if `expires_at` was previously unset (an already-set value is
kept unchanged). -/
theorem c6_send_envelope_contract (s : Store) (eid uid : Nat) (now : Int) (env : Envelope)
    (henv : s.get_envelope_by_id eid = some env) :
    (env.senderId ≠ uid →
      sendEnvelope s eid uid now
        = .error (Err.permission "Only sender can send envelope"))
    ∧ (env.senderId = uid → env.status ≠ EnvelopeStatus.draft →
      sendEnvelope s eid uid now
        = .error (Err.validation ("Cannot send envelope with status " ++ env.status.valueStr)))
    ∧ (env.senderId = uid → env.status = EnvelopeStatus.draft →
      s.get_recipients_by_envelope eid = [] →
      sendEnvelope s eid uid now
        = .error (Err.validation "Envelope must have at least one recipient"))
    ∧ (env.senderId = uid → env.status = EnvelopeStatus.draft →
      s.get_recipients_by_envelope eid ≠ [] →
      (¬ ∃ r ∈ s.get_recipients_by_envelope eid, r.role = RecipientRole.signer) →
      sendEnvelope s eid uid now
        = .error (Err.validation "Envelope must have at least one signer"))
    ∧ (∀ e' s', sendEnvelope s eid uid now = .ok (e', s') →
      e'.status = EnvelopeStatus.sent ∧ e'.sentAt = some now ∧
      (env.expiresAt = none →
        e'.expiresAt = some (now + env.expirationDays * microsecondsPerDay)) ∧
      (∀ t, env.expiresAt = some t → e'.expiresAt = some t)) := by
  refine ⟨?_, ?_, ?_, ?_, ?_⟩
  · intro h1
    unfold sendEnvelope
    rw [henv]
    simp only []
    rw [if_pos h1]
  · intro h1 h2
    unfold sendEnvelope
    rw [henv]
    simp only []
    simp only [h1]
    rw [if_neg (by simp)]
    unfold Envelope.can_send
    rw [if_pos h2]
    rfl
  · intro h1 h2 h3
    unfold sendEnvelope
    rw [henv]
    simp only []
    simp only [h1]
    rw [if_neg (by simp)]
    unfold Envelope.can_send
    rw [if_neg (by simp [h2]), h3]
    rw [if_pos rfl]
  · intro h1 h2 h3 h4
    unfold sendEnvelope
    rw [henv]
    simp only []
    simp only [h1]
    rw [if_neg (by simp)]
    unfold Envelope.can_send
    rw [if_neg (by simp [h2])]
    rw [if_neg h3]
    rw [if_pos ?hc]
    case hc =>
      simp only [List.any_eq_true, decide_eq_true_eq]
      exact h4
  · intro e' s' h
    unfold sendEnvelope at h
    rw [henv] at h
    simp only [] at h
    split at h
    · exact absurd h (by simp)
    · split at h
      · exact absurd h (by simp)
      · split at h
        · exact absurd h (by simp)
        · split at h
          · exact absurd h (by simp)
          · split at h
            · exact absurd h (by simp)
            · rename_i e1 hsend
              have hf := Envelope.send_fields env now e1 hsend
              have he1 : e1 = e' := by
                split at h
                · split at h
                  · exact absurd h (by simp)
                  · simp only [Except.ok.injEq, Prod.mk.injEq] at h
                    exact h.1
                · simp only [Except.ok.injEq, Prod.mk.injEq] at h
                  exact h.1
              subst he1
              exact ⟨hf.2.1, hf.2.2.1, hf.2.2.2.2.1, hf.2.2.2.2.2.1⟩

/-- Witness for C6: sending the draft envelope of the C3 fixture succeeds,
sets `sent_at = 7` and, since `expires_at` was unset, sets it to
`sent_at` plus 30 days. -/
theorem c6_send_envelope_contract_witness :
    sendEnvelope c3Wstore 1 10 7 = Except.ok (c3Wenv1, c3Wstore')
    ∧ c3Wenv1.status = EnvelopeStatus.sent
    ∧ c3Wenv1.sentAt = some 7
    ∧ c3Wenv1.expiresAt = some (7 + 30 * microsecondsPerDay) :=
  ⟨by decide,
   ((c6_send_envelope_contract c3Wstore 1 10 7
      (sampleEnv EnvelopeStatus.draft SigningOrder.sequential)
      (by decide)).2.2.2.2 c3Wenv1 c3Wstore' (by decide)).1,
   ((c6_send_envelope_contract c3Wstore 1 10 7
      (sampleEnv EnvelopeStatus.draft SigningOrder.sequential)
      (by decide)).2.2.2.2 c3Wenv1 c3Wstore' (by decide)).2.1,
   ((c6_send_envelope_contract c3Wstore 1 10 7
      (sampleEnv EnvelopeStatus.draft SigningOrder.sequential)
      (by decide)).2.2.2.2 c3Wenv1 c3Wstore' (by decide)).2.2.1 rfl⟩

/-! ### C7 -/

/-- Pre-state for C7: a sent envelope whose sole recipient is a signer who
has already signed. -/
def c7S0 : Store :=
  Store.mk [sampleEnv EnvelopeStatus.sent SigningOrder.parallel]
    [sampleRec 2 RecipientRole.signer 1 RecipientStatus.signed]

/-- The signed recipient after `DeclineEnvelope` moves it to declined. -/
def c7DeclinedRec : Recipient :=
  { sampleRec 2 RecipientRole.signer 1 RecipientStatus.signed with
    status := RecipientStatus.declined
    declineReason := some "changed my mind"
    declinedAt := some 8
    updatedAt := 8 }

/-- The envelope after the decline of the signed recipient. -/
def c7DeclinedEnv : Envelope :=
  { sampleEnv EnvelopeStatus.sent SigningOrder.parallel with
    status := EnvelopeStatus.declined, updatedAt := 8 }

/-- The signed recipient after a `MarkRecipientViewed` call: the status is
left at `signed` (only `viewed_at` is stamped). -/
def c7ViewedRec : Recipient :=
  { sampleRec 2 RecipientRole.signer 1 RecipientStatus.signed with
    viewedAt := some 9, updatedAt := 9 }

/-- C7 fails on the code: `Recipient.mark_declined` has no status guard, so
`DeclineEnvelope` moves an already-*signed* recipient to `declined` — the
status `signed` is not terminal under `DeclineEnvelope`.  The other
operations do respect terminality on this input: `MarkRecipientSigned`
refuses a signed recipient with the ValueError "Recipient has already
signed", and `MarkRecipientViewed` leaves a signed recipient's status
unchanged. -/
theorem c7_signed_recipient_declinable :
    declineEnvelope c7S0 1 2 "changed my mind" 8
      = Except.ok (c7DeclinedRec, Store.mk [c7DeclinedEnv] [c7DeclinedRec])
    ∧ c7DeclinedRec.status = RecipientStatus.declined
    ∧ markRecipientSigned c7S0 1 2 9
        = Except.error (Err.valueError "Recipient has already signed")
    ∧ markRecipientViewed c7S0 1 2 9
        = Except.ok (c7ViewedRec, Store.mk [sampleEnv EnvelopeStatus.sent SigningOrder.parallel] [c7ViewedRec])
    ∧ c7ViewedRec.status = RecipientStatus.signed :=
  ⟨by decide, by decide, by decide, by decide, by decide⟩

/-! ### C9 -/

/-- `mark_viewed` preserves the recipient id. -/
theorem mark_viewed_recipientId (r : Recipient) (t : Int) :
    (r.mark_viewed t).recipientId = r.recipientId := by
  unfold Recipient.mark_viewed
  simp only []
  split <;> split <;> rfl

/-- Single-call behaviour of `Recipient.mark_viewed`: transition to
`viewed` only from `pending`/`sent`, otherwise status unchanged;
`viewed_at` is set only when previously unset, and kept otherwise. -/
theorem mark_viewed_spec (r : Recipient) (t : Int) :
    (((r.status = RecipientStatus.pending ∨ r.status = RecipientStatus.sent) →
        (r.mark_viewed t).status = RecipientStatus.viewed)
    ∧ (¬ (r.status = RecipientStatus.pending ∨ r.status = RecipientStatus.sent) →
        (r.mark_viewed t).status = r.status)
    ∧ (r.viewedAt = none → (r.mark_viewed t).viewedAt = some t)
    ∧ (∀ v, r.viewedAt = some v → (r.mark_viewed t).viewedAt = some v)) := by
  unfold Recipient.mark_viewed
  cases hs : r.status <;> cases hv : r.viewedAt <;> simp [hs, hv]

/-- Calling `mark_viewed` twice leaves `viewed_at` and status exactly as
after the first call. -/
theorem mark_viewed_idem (r : Recipient) (t1 t2 : Int) :
    ((r.mark_viewed t1).mark_viewed t2).viewedAt = (r.mark_viewed t1).viewedAt
    ∧ ((r.mark_viewed t1).mark_viewed t2).status = (r.mark_viewed t1).status := by
  unfold Recipient.mark_viewed
  cases hs : r.status <;> cases hv : r.viewedAt <;> simp [hs, hv]

/-- `mark_viewed` preserves the envelope id. -/
theorem mark_viewed_envelopeId (r : Recipient) (t : Int) :
    (r.mark_viewed t).envelopeId = r.envelopeId := by
  unfold Recipient.mark_viewed
  simp only []
  split <;> split <;> rfl

/-- C9: `MarkRecipientViewed` is idempotent at the service level: calling
it twice yields the same `viewed_at` both times and the same status (in
particular a recipient viewed from `pending`/`sent` stays `viewed`, not
reverted); a single call transitions the status to `viewed` only from
`pending` or `sent`, leaves the status of a `viewed`/`signed`/`declined`
recipient unchanged, and sets `viewed_at` only if it was previously unset
(the first view timestamp is sticky). -/
theorem c9_mark_viewed_idempotent (s : Store) (eid rid : Nat) (t1 t2 : Int)
    (r0 r1 r2 : Recipient) (s1 s2 : Store)
    (hr0 : s.get_recipient_by_id rid = some r0)
    (h1 : markRecipientViewed s eid rid t1 = .ok (r1, s1))
    (h2 : markRecipientViewed s1 eid rid t2 = .ok (r2, s2)) :
    r2.viewedAt = r1.viewedAt
    ∧ r2.status = r1.status
    ∧ ((r0.status = RecipientStatus.pending ∨ r0.status = RecipientStatus.sent) →
        r1.status = RecipientStatus.viewed ∧ r2.status = RecipientStatus.viewed)
    ∧ (¬ (r0.status = RecipientStatus.pending ∨ r0.status = RecipientStatus.sent) →
        r1.status = r0.status)
    ∧ (r0.viewedAt = none → r1.viewedAt = some t1)
    ∧ (∀ v, r0.viewedAt = some v → r1.viewedAt = some v) := by
  unfold markRecipientViewed at h1
  rw [hr0] at h1
  simp only [] at h1
  split at h1
  · exact absurd h1 (by simp)
  · rename_i hmem
    simp only [Except.ok.injEq, Prod.mk.injEq] at h1
    obtain ⟨hr1, hs1⟩ := h1
    have hr0id : r0.recipientId = rid := by simpa using List.find?_some hr0
    have hgs1 : s1.get_recipient_by_id rid = some r1 := by
      rw [← hs1, get_recipient_update, hr0, Option.map_some', ← hr1,
        if_pos (by rw [mark_viewed_recipientId, hr0id])]
    unfold markRecipientViewed at h2
    rw [hgs1] at h2
    simp only [] at h2
    split at h2
    · exact absurd h2 (by simp)
    · simp only [Except.ok.injEq, Prod.mk.injEq] at h2
      obtain ⟨hr2, hs2⟩ := h2
      subst hr1
      subst hr2
      refine ⟨(mark_viewed_idem r0 t1 t2).1, (mark_viewed_idem r0 t1 t2).2, ?_, ?_, ?_, ?_⟩
      · intro hp
        have h1v := (mark_viewed_spec r0 t1).1 hp
        refine ⟨h1v, ?_⟩
        rw [(mark_viewed_idem r0 t1 t2).2, h1v]
      · exact (mark_viewed_spec r0 t1).2.1
      · exact (mark_viewed_spec r0 t1).2.2.1
      · exact (mark_viewed_spec r0 t1).2.2.2

/-- Pre-state for the C9 witness: a pending recipient that has never
viewed. -/
def c9S0 : Store :=
  Store.mk [sampleEnv EnvelopeStatus.sent SigningOrder.parallel]
    [sampleRec 2 RecipientRole.signer 1 RecipientStatus.pending]

/-- The recipient after the first view at time 3. -/
def c9r1 : Recipient :=
  { sampleRec 2 RecipientRole.signer 1 RecipientStatus.pending with
    status := RecipientStatus.viewed, viewedAt := some 3, updatedAt := 3 }

/-- The recipient after the second view at time 6: same `viewed_at`, same
status, only `updated_at` moves. -/
def c9r2 : Recipient :=
  { c9r1 with updatedAt := 6 }

/-- Store after the first view. -/
def c9S1 : Store :=
  Store.mk [sampleEnv EnvelopeStatus.sent SigningOrder.parallel] [c9r1]

/-- Store after the second view. -/
def c9S2 : Store :=
  Store.mk [sampleEnv EnvelopeStatus.sent SigningOrder.parallel] [c9r2]

/-- Witness for C9: viewing twice keeps `viewed_at = some 3` and status
`viewed`. -/
theorem c9_mark_viewed_idempotent_witness :
    markRecipientViewed c9S0 1 2 3 = Except.ok (c9r1, c9S1)
    ∧ markRecipientViewed c9S1 1 2 6 = Except.ok (c9r2, c9S2)
    ∧ c9r2.viewedAt = c9r1.viewedAt
    ∧ c9r2.status = RecipientStatus.viewed :=
  ⟨by decide, by decide,
   (c9_mark_viewed_idempotent c9S0 1 2 3 6
      (sampleRec 2 RecipientRole.signer 1 RecipientStatus.pending)
      c9r1 c9r2 c9S1 c9S2 (by decide) (by decide) (by decide)).1,
   ((c9_mark_viewed_idempotent c9S0 1 2 3 6
      (sampleRec 2 RecipientRole.signer 1 RecipientStatus.pending)
      c9r1 c9r2 c9S1 c9S2 (by decide) (by decide) (by decide)).2.2.1
      (Or.inl (by decide))).2⟩

/-! ### C10 -/

/-- C10: for a draft envelope, sender caller, and a recipient belonging to
that envelope, `UpdateRecipientSigningOrder` writes whatever integer it is
given as the new `signing_order` — with no range validation, so 0 or
negative values are accepted and persisted — whereas `AddRecipient` under
the same envelope conditions rejects any `signing_order < 1` with the
ValidationError "Signing order must be at least 1". -/
theorem c10_update_signing_order_unvalidated (s : Store) (eid uid rid : Nat) (k : Int)
    (now : Int) (env : Envelope) (r0 : Recipient)
    (henv : s.get_envelope_by_id eid = some env)
    (hsender : env.senderId = uid)
    (hdraft : env.status = EnvelopeStatus.draft)
    (hr0 : s.get_recipient_by_id rid = some r0)
    (hmem : r0.envelopeId = eid) :
    updateRecipientSigningOrder s eid uid [(rid, k)] now
      = .ok ([{ r0 with signingOrder := k, updatedAt := now }],
          s.update_recipient { r0 with signingOrder := k, updatedAt := now })
    ∧ (k < 1 → ∀ (sha : String → String) (name email : String),
        Recipient.validate_name name = (true, none) →
        Recipient.validate_email email = (true, none) →
        ∀ (role : RecipientRole) (phone : Option String) (newId : Nat)
          (code : String) (t : Int),
        addRecipient sha s eid uid name email role phone k newId code t
          = .error (Err.validation "Signing order must be at least 1")) := by
  constructor
  · unfold updateRecipientSigningOrder
    rw [henv]
    simp only []
    rw [if_neg (by simp [hsender]), if_neg (by simp [hdraft])]
    unfold updateOrdersLoop
    rw [hr0]
    simp only []
    rw [if_neg (by simp [hmem])]
    unfold updateOrdersLoop
    rfl
  · intro hk sha name email hname hemail role phone newId code t
    unfold addRecipient
    rw [henv]
    simp only []
    rw [if_neg (by simp [hsender]), if_neg (by simp [hdraft]), hname]
    simp only []
    rw [hemail]
    simp only []
    unfold Recipient.validate_signing_order
    rw [if_pos (by exact lt_of_lt_of_le hk (le_refl _))]
    rfl

/-- Recipient 2 of the C3 fixture after its signing order is set to 0. -/
def c10r0z : Recipient :=
  { sampleRec 2 RecipientRole.signer 1 RecipientStatus.pending with
    signingOrder := 0, updatedAt := 9 }

/-- Witness for C10: setting recipient 2's signing order to 0 succeeds and
persists 0, while adding a recipient with signing order 0 fails. -/
theorem c10_update_signing_order_unvalidated_witness :
    updateRecipientSigningOrder c3Wstore 1 10 [(2, 0)] 9
      = Except.ok ([c10r0z], c3Wstore.update_recipient c10r0z)
    ∧ c10r0z.signingOrder = 0
    ∧ addRecipient (fun x => x) c3Wstore 1 10 "R" "r@x.com"
        RecipientRole.signer none 0 77 "123456" 9
      = Except.error (Err.validation "Signing order must be at least 1") :=
  ⟨(c10_update_signing_order_unvalidated c3Wstore 1 10 2 0 9
      (sampleEnv EnvelopeStatus.draft SigningOrder.sequential)
      (sampleRec 2 RecipientRole.signer 1 RecipientStatus.pending)
      (by decide) (by decide) (by decide) (by decide) (by decide)).1,
   by decide,
   (c10_update_signing_order_unvalidated c3Wstore 1 10 2 0 9
      (sampleEnv EnvelopeStatus.draft SigningOrder.sequential)
      (sampleRec 2 RecipientRole.signer 1 RecipientStatus.pending)
      (by decide) (by decide) (by decide) (by decide) (by decide)).2
     (by decide) (fun x => x) "R" "r@x.com" (by decide) (by decide)
     RecipientRole.signer none 77 "123456" 9⟩

/-! ### C8 -/

/-- C8: after `AddRecipient` returns a recipient and its plaintext code,
`VerifyRecipientAccess` with that envelope, that email and that code
returns that recipient; with any other code whose hash differs (SHA-256
is collision-free on 6-digit codes, stated here as a hypothesis on the
abstract hash), or with an email that does not match case-insensitively,
it returns not-found (`none`) rather than an error — and the two
not-found results are the very same value, so the caller cannot tell a
wrong code from a wrong email.  The freshness hypothesis says no
pre-existing recipient of the envelope carries either hash, mirroring the
database situation after inserting a freshly generated code. -/
theorem c8_access_verification_roundtrip (sha : String → String) (s : Store)
    (eid senderId : Nat) (name email : String) (role : RecipientRole)
    (phone : Option String) (ord : Int) (newId : Nat) (code : String) (now : Int)
    (r : Recipient) (s' : Store)
    (hadd : addRecipient sha s eid senderId name email role phone ord newId code now
      = .ok (r, s'))
    (code' : String)
    (hcoll : sha code' ≠ sha code)
    (hfresh : ∀ x ∈ s.recipients, x.envelopeId = eid →
      x.accessCodeHash ≠ some (sha code) ∧ x.accessCodeHash ≠ some (sha code')) :
    verifyRecipientAccess sha s' eid email code = .ok (some r)
    ∧ verifyRecipientAccess sha s' eid email code' = .ok none
    ∧ (∀ email2, pyLower email2 ≠ pyLower email →
        verifyRecipientAccess sha s' eid email2 code = .ok none)
    ∧ (∀ email2, pyLower email2 ≠ pyLower email →
        verifyRecipientAccess sha s' eid email2 code
          = verifyRecipientAccess sha s' eid email code') := by
  unfold addRecipient at hadd
  split at hadd
  · exact absurd hadd (by simp)
  · rename_i env henv
    split at hadd
    · exact absurd hadd (by simp)
    · split at hadd
      · exact absurd hadd (by simp)
      · split at hadd
        · exact absurd hadd (by simp)
        · split at hadd
          · exact absurd hadd (by simp)
          · split at hadd
            · exact absurd hadd (by simp)
            · split at hadd
              · exact absurd hadd (by simp)
              · simp only [Except.ok.injEq, Prod.mk.injEq] at hadd
                obtain ⟨hr, hs'⟩ := hadd
                rw [hr] at hs'
                subst hs'
                have hfilter : ∀ (hh : String),
                    (∀ x ∈ s.recipients, x.envelopeId = eid → x.accessCodeHash ≠ some hh) →
                    s.recipients.filter (fun x => decide (x.envelopeId = eid ∧
                      x.accessCodeHash = some hh)) = [] := by
                  intro hh hcond
                  rw [List.filter_eq_nil_iff]
                  intro x hx
                  simp only [decide_eq_true_eq, not_and]
                  intro hxe
                  exact hcond x hx hxe
                have hgood : Store.get_recipient_by_access_code_hash
                    (s.create_recipient r) eid (sha code) = .ok (some r) := by
                  unfold Store.get_recipient_by_access_code_hash Store.create_recipient
                  simp only [List.filter_append,
                    hfilter (sha code) (fun x hx hxe => (hfresh x hx hxe).1)]
                  rw [← hr]
                  simp [scalarOneOrNone]
                have hbad : Store.get_recipient_by_access_code_hash
                    (s.create_recipient r) eid (sha code') = .ok none := by
                  unfold Store.get_recipient_by_access_code_hash Store.create_recipient
                  simp only [List.filter_append,
                    hfilter (sha code') (fun x hx hxe => (hfresh x hx hxe).2)]
                  rw [← hr]
                  have hcoll2 : sha code ≠ sha code' := fun hh => hcoll hh.symm
                  simp [scalarOneOrNone, hcoll2]
                have hremail : r.email = email := by rw [← hr]
                refine ⟨?_, ?_, ?_, ?_⟩
                · unfold verifyRecipientAccess
                  rw [hgood]
                  simp only []
                  rw [if_neg (by rw [hremail]; simp)]
                · unfold verifyRecipientAccess
                  rw [hbad]
                · intro email2 hne
                  unfold verifyRecipientAccess
                  rw [hgood]
                  simp only []
                  rw [if_pos (by rw [hremail]; exact fun hh => hne hh.symm)]
                · intro email2 hne
                  unfold verifyRecipientAccess
                  rw [hgood, hbad]
                  simp only []
                  rw [if_pos (by rw [hremail]; exact fun hh => hne hh.symm)]

/-- The recipient created by the C8 witness `AddRecipient` call (hash
function instantiated with the identity stand-in). -/
def c8newRec : Recipient :=
  { recipientId := 9, envelopeId := 1, name := "Dana", email := "dana@x.com",
    role := RecipientRole.signer, signingOrder := 1,
    status := RecipientStatus.pending, userId := none, phone := none,
    accessCode := some "123456", accessCodeHash := some "123456",
    declineReason := none, sentAt := none, viewedAt := none, signedAt := none,
    declinedAt := none, createdAt := 4, updatedAt := 4 }

/-- Store after the C8 witness `AddRecipient` call. -/
def c8S' : Store :=
  Store.mk c3Wstore.envelopes (c3Wstore.recipients ++ [c8newRec])

/-- Witness for C8: add a recipient with code "123456" to the draft
envelope, then verify with the right code (found), a wrong code
(not-found), and a wrong email (not-found). -/
theorem c8_access_verification_roundtrip_witness :
    addRecipient (fun x => x) c3Wstore 1 10 "Dana" "dana@x.com"
      RecipientRole.signer none 1 9 "123456" 4 = Except.ok (c8newRec, c8S')
    ∧ verifyRecipientAccess (fun x => x) c8S' 1 "dana@x.com" "123456"
        = Except.ok (some c8newRec)
    ∧ verifyRecipientAccess (fun x => x) c8S' 1 "dana@x.com" "654321"
        = Except.ok none
    ∧ verifyRecipientAccess (fun x => x) c8S' 1 "other@x.com" "123456"
        = Except.ok none :=
  ⟨by decide,
   (c8_access_verification_roundtrip (fun x => x) c3Wstore 1 10 "Dana" "dana@x.com"
      RecipientRole.signer none 1 9 "123456" 4 c8newRec c8S' (by decide)
      "654321" (by decide) (by decide)).1,
   (c8_access_verification_roundtrip (fun x => x) c3Wstore 1 10 "Dana" "dana@x.com"
      RecipientRole.signer none 1 9 "123456" 4 c8newRec c8S' (by decide)
      "654321" (by decide) (by decide)).2.1,
   (c8_access_verification_roundtrip (fun x => x) c3Wstore 1 10 "Dana" "dana@x.com"
      RecipientRole.signer none 1 9 "123456" 4 c8newRec c8S' (by decide)
      "654321" (by decide) (by decide)).2.2.1 "other@x.com" (by decide)⟩
